import Mathlib

/-!
Shallow embedding of the discord-log-handler repository
(`src/loggord/handler.py` and `src/main.py`): a logging handler that
forwards log records to a Discord channel, either through a bot session
(an asynchronous `create_task` hand-off) or through a synchronous HTTP
POST to a webhook URL.

Machine-level conventions of the embedding:
* A Python `logging.LogRecord` is modelled by the `LogRecord` structure,
  restricted to the attributes the handler reads (`levelno`, `levelname`,
  `message`, `module`, `asctime`).
* Python string operations used by the source are embedded on `List Char`:
  `s.split(',')[0]` is the prefix before the first comma (`pySplitHead`),
  and `s.replace(" ", "T")` maps every space to `T` (`pyReplaceChar`).
* Python truthiness drives the constructor's branches: `None` is falsy,
  a bot object is truthy, a string is truthy iff non-empty.
* `emit` is embedded as a function from a handler, a record and a network
  oracle (standing for `urllib.request.urlopen`) to a result together with
  the list of observable effects it performs (scheduled tasks, HTTP posts).
* Exceptions (`ValueError`, `urllib` errors, attribute errors in the
  scheduled send) are embedded with `Except` / explicit outcome types.
-/

/-- The numeric value of `logging.DEBUG`. -/
def DEBUG : Nat := 10

/-- The numeric value of `logging.INFO`. -/
def INFO : Nat := 20

/-- The numeric value of `logging.WARNING`. -/
def WARNING : Nat := 30

/-- The numeric value of `logging.ERROR`. -/
def ERROR : Nat := 40

/-- The numeric value of `logging.CRITICAL`. -/
def CRITICAL : Nat := 50

/-- The five standard severity levels of the `logging` framework. -/
def standardLevels : List Nat := [DEBUG, INFO, WARNING, ERROR, CRITICAL]

/-- A `logging.LogRecord`, restricted to the attributes the handler reads. -/
structure LogRecord where
  levelno : Nat
  levelname : String
  message : String
  module : String
  asctime : String
deriving DecidableEq

/-- Embedding of Python `s.split(sep)[0]` for a one-character separator:
the prefix of the character list strictly before the first occurrence of
`sep` (the whole list when `sep` does not occur). -/
def pySplitHead : List Char → Char → List Char
  | [], _ => []
  | c :: cs, sep => if c = sep then [] else c :: pySplitHead cs sep

/-- Embedding of Python `s.replace(a, b)` for one-character arguments:
every occurrence of `a` is mapped to `b`. -/
def pyReplaceChar (l : List Char) (a b : Char) : List Char :=
  l.map (fun c => if c = a then b else c)

namespace Loggord

/-- `get_color` from `src/loggord/handler.py`: severity → accent color. -/
def get_color (record : LogRecord) : Nat :=
  if record.levelno ≥ 40 then 0xE74C3C
  else if record.levelno == 30 then 0xF1C40F
  else 0x95A5A6

/-- `get_timestamp` from `src/loggord/handler.py`:
`record.asctime.split(',')[0]`. -/
def get_timestamp (record : LogRecord) : String :=
  ⟨pySplitHead record.asctime.data ','⟩

/-- The webhook timestamp string built inside `webhook_format`:
`f'{timestamp.replace(" ", "T")}.000Z'` applied to `get_timestamp`. -/
def isoTimestamp (record : LogRecord) : String :=
  ⟨pyReplaceChar (get_timestamp record).data ' ' 'T'⟩ ++ ".000Z"

end Loggord

/-- A JSON value, the image of the Python dict literal built by
`webhook_format` under `json.dumps`. -/
inductive Json where
  | str : String → Json
  | num : Nat → Json
  | bool : Bool → Json
  | arr : List Json → Json
  | obj : List (String × Json) → Json

/-- Field lookup in a JSON object (`none` on non-objects/missing keys). -/
def Json.getField : Json → String → Option Json
  | .obj kvs, k => kvs.lookup k
  | _, _ => none

/-- Index lookup in a JSON array (`none` on non-arrays/out of range). -/
def Json.getIndex : Json → Nat → Option Json
  | .arr xs, i => xs.get? i
  | _, _ => none

namespace Loggord

/-- `webhook_format` from `src/loggord/handler.py`: the JSON payload
POSTed to the webhook, embedded as a JSON value. -/
def webhook_format (record : LogRecord) : Json :=
  let color := get_color record
  let timestamp := isoTimestamp record
  .obj [("embeds", .arr [
    .obj [
      ("description", .str record.message),
      ("color", .num color),
      ("timestamp", .str timestamp),
      ("fields", .arr [
        .obj [("name", .str "Level"),
              ("value", .str record.levelname),
              ("inline", .bool true)],
        .obj [("name", .str "Module"),
              ("value", .str record.module),
              ("inline", .bool true)]])]])]

end Loggord

/-- One labeled field of a `discord.Embed` (as produced by `add_field`;
`inline` defaults to `true` in the library and the source never passes
it explicitly). -/
structure EmbedField where
  name : String
  value : String
  inline : Bool
deriving DecidableEq

/-- A `discord.Embed` as built by the source: description, color value,
timestamp (the ISO string handed to `datetime.fromisoformat`), and the
fields added by `add_field` in order. -/
structure Embed where
  description : String
  color : Nat
  timestamp : String
  fields : List EmbedField
deriving DecidableEq

namespace Loggord

/-- `bot_format` from `src/loggord/handler.py`: the `discord.Embed` built
for the bot path (`discord.Color(get_color(record))` carries exactly the
integer `get_color record`). -/
def bot_format (record : LogRecord) : Embed :=
  let color := get_color record
  let timestamp := get_timestamp record
  { description := record.message
    color := color
    timestamp := timestamp
    fields := [
      { name := "Level", value := record.levelname, inline := true },
      { name := "Module", value := record.module, inline := true },
      { name := "Timestamp", value := timestamp, inline := true }] }

end Loggord

/-- A bot session (a `commands.Bot`), restricted to what the handler
uses: its channel registry, consulted by `bot.get_channel`. A channel is
represented by its identifier. -/
structure BotSession where
  channels : Nat → Option Nat

/-- `bot.get_channel` applied to the stored (optional) channel identifier:
`get_channel` looks the identifier up in the session's registries, and a
`None` argument is found in none of them, so it yields `None`. -/
def BotSession.get_channel (b : BotSession) : Option Nat → Option Nat
  | none => none
  | some cid => b.channels cid

/-- Python truthiness of the `bot` argument: `None` is falsy, any bot
object is truthy. -/
def truthyBot : Option BotSession → Bool
  | none => false
  | some _ => true

/-- Python truthiness of the `webhook_url` argument: `None` and the empty
string are falsy, any other string is truthy. -/
def truthyStr : Option String → Bool
  | none => false
  | some s => !s.isEmpty

namespace Loggord

/-- The state of a constructed `DiscordLogHandler`
(`src/loggord/handler.py`): the attributes set by `__init__` plus the
handler level managed by `logging.Handler` (`NOTSET = 0` initially,
`setLevel` overwrites it). -/
structure Handler where
  webhook_url : Option String
  bot : Option BotSession
  channel_id : Option Nat
  level : Nat

/-- `DiscordLogHandler.__init__(webhook_url, bot, channel_id)` from
`src/loggord/handler.py`: raises `ValueError` (embedded as `.error` with
the message) when neither or both of `bot`/`webhook_url` are truthy,
otherwise stores the three arguments unchanged; `channel_id` is never
inspected. -/
def DiscordLogHandler.init (webhook_url : Option String) (bot : Option BotSession)
    (channel_id : Option Nat) : Except String Handler :=
  if !truthyBot bot && !truthyStr webhook_url then
    .error "Either bot or webhook_url must be provided."
  else if truthyBot bot && truthyStr webhook_url then
    .error "Cannot provide both bot and webhook_url."
  else
    .ok { webhook_url := webhook_url, bot := bot, channel_id := channel_id,
          level := 0 }

/-- A network-level error raised by `urllib.request.urlopen`: an
`HTTPError` for a non-2xx status, or a transport-level `URLError`. -/
inductive NetError where
  | httpError : Nat → NetError
  | urlError : String → NetError
deriving DecidableEq

/-- The `urllib.request.Request` built by the webhook branch of `emit`;
the body is the `json.dumps`-serialized payload, kept as a JSON value. -/
structure HttpRequest where
  url : String
  method : String
  headers : List (String × String)
  body : Json

/-- An observable effect of `emit`: scheduling `_send_log(embed)` on the
bot's event loop via `create_task`, or performing a synchronous HTTP
request via `urlopen`. -/
inductive Effect where
  | createTask : Embed → Effect
  | httpPost : HttpRequest → Effect

/-- Whether an effect is a synchronous HTTP request. -/
def Effect.isHttpPost : Effect → Bool
  | .httpPost _ => true
  | _ => false

/-- Whether an effect is a scheduled asynchronous task. -/
def Effect.isCreateTask : Effect → Bool
  | .createTask _ => true
  | _ => false

/-- The request the webhook branch of `emit` builds. -/
def webhookRequest (h : Handler) (record : LogRecord) : HttpRequest :=
  { url := h.webhook_url.getD ""
    method := "POST"
    headers := [("Content-Type", "application/json"),
                ("User-Agent", "Mozilla/5.0")]
    body := webhook_format record }

/-- `DiscordLogHandler.emit` from `src/loggord/handler.py`, given a
network oracle standing for `urlopen`. Returns the propagated result
(`.error` when `urlopen` raises: the webhook branch has no handler around
it) paired with the list of effects performed: in the bot branch, one
`create_task` of `_send_log(bot_format record)` and nothing else — the
task itself is not awaited; in the webhook branch, one `urlopen` of the
built request. -/
def emitRun (h : Handler) (record : LogRecord)
    (urlopen : HttpRequest → Except NetError Unit) :
    Except NetError Unit × List Effect :=
  if truthyBot h.bot then
    (.ok (), [.createTask (bot_format record)])
  else if truthyStr h.webhook_url then
    (urlopen (webhookRequest h record), [.httpPost (webhookRequest h record)])
  else
    (.ok (), [])

/-- Outcome of running the scheduled coroutine `_send_log(embed)`. -/
inductive SendOutcome where
  | sent : Nat → Embed → SendOutcome
  | attrError : SendOutcome
  | skipped : SendOutcome
deriving DecidableEq

/-- `DiscordLogHandler._send_log` from `src/loggord/handler.py`: when a
bot is stored, resolve `self.channel_id` with `bot.get_channel` and send
the embed to the resulting channel; `channel.send` on a `None` channel
raises `AttributeError` (`attrError`); without a bot the body is
skipped. -/
def sendLogRun (h : Handler) (embed : Embed) : SendOutcome :=
  match h.bot with
  | none => .skipped
  | some b =>
    match b.get_channel h.channel_id with
    | none => .attrError
    | some ch => .sent ch embed

end Loggord

/-- A `logging.Logger`, restricted to what the registration function
touches: its name, its own level, and its handler list (handler state is
kept as a pair of the mode tag and the handler level; only levels matter
to record routing). -/
structure Logger where
  name : String
  level : Nat
  handlerLevels : List Nat
deriving DecidableEq

/-- `logger.isEnabledFor(levelno)` for a logger whose own level is set
(the registration function always sets it, so no parent delegation
occurs): the record is processed iff `levelno ≥ logger.level`. -/
def Logger.isEnabledFor (l : Logger) (levelno : Nat) : Bool :=
  decide (l.level ≤ levelno)

/-- `logging.Logger.callHandlers`: a handler attached at level `hLevel`
receives a record iff `levelno ≥ hLevel`. -/
def handlerReceives (hLevel levelno : Nat) : Bool :=
  decide (hLevel ≤ levelno)

/-- A record reaches the sink iff it passes both the logger's own level
and the handler's level. -/
def sinkReceives (l : Logger) (hLevel levelno : Nat) : Bool :=
  l.isEnabledFor levelno && handlerReceives hLevel levelno

namespace Loggord

/-- `configure_discord_logging` from `src/loggord/handler.py`, as a
transformer of the named logger's state (`registry` stands for
`logging.getLogger`). It sets the logger's level to `DEBUG`, then
constructs `DiscordLogHandler(webhook_url, bot, channel_id)`; on success
the handler's level is set to `INFO` and the handler is appended, and the
logger is returned. The first component is the named logger's final
state (the `setLevel(DEBUG)` mutation survives even when the constructor
raises, but no handler is ever attached in that case). -/
def configure_discord_logging (name : String) (bot : Option BotSession)
    (channel_id : Option Nat) (webhook_url : Option String)
    (registry : String → Logger) :
    Logger × Except String (Logger × Handler) :=
  let logger := registry name
  let logger := { logger with level := DEBUG }
  match DiscordLogHandler.init webhook_url bot channel_id with
  | .error e => (logger, .error e)
  | .ok h =>
    let h := { h with level := INFO }
    let logger := { logger with handlerLevels := logger.handlerLevels ++ [h.level] }
    (logger, .ok (logger, h))

end Loggord

/-- Value of `discord.Color.red()` in the discord.py dependency
(`discord/colour.py`): `0xE74C3C`. -/
def discordColorRed : Nat := 0xE74C3C

/-- Value of `discord.Color.yellow()` in the discord.py dependency
(`discord/colour.py`, present since version 2.0): `0xFEE75C`. -/
def discordColorYellow : Nat := 0xFEE75C

/-- Value of `discord.Color.greyple()` in the discord.py dependency
(`discord/colour.py`): `0x99AAB5`. -/
def discordColorGreyple : Nat := 0x99AAB5

namespace MainScript

/-- The state of a `DiscordLogHandler` from `src/main.py`: its `__init__`
performs no validation and stores `bot` and `channel_id` (both required
positional arguments); `level` is the `logging.Handler` level
(`NOTSET = 0` initially). -/
structure Handler where
  bot : BotSession
  channel_id : Nat
  level : Nat

/-- `DiscordLogHandler.__init__(bot, channel_id)` from `src/main.py`:
never raises, stores both arguments. -/
def DiscordLogHandler.init (bot : BotSession) (channel_id : Nat) : Handler :=
  { bot := bot, channel_id := channel_id, level := 0 }

/-- The color branch of `DiscordLogHandler.format` in `src/main.py`:
`discord.Color.red()` for `levelno >= 40`, `discord.Color.yellow()` for
`levelno == 30`, `discord.Color.greyple()` otherwise. -/
def formatColor (record : LogRecord) : Nat :=
  if record.levelno ≥ 40 then discordColorRed
  else if record.levelno == 30 then discordColorYellow
  else discordColorGreyple

/-- `DiscordLogHandler.format` from `src/main.py`: the `discord.Embed`
with the branch-selected color, `record.asctime.split(',')[0]` as
timestamp, and the three fields added by `add_field`. -/
def format (record : LogRecord) : Embed :=
  let timestamp : String := ⟨pySplitHead record.asctime.data ','⟩
  { description := record.message
    color := formatColor record
    timestamp := timestamp
    fields := [
      { name := "Level", value := record.levelname, inline := true },
      { name := "Module", value := record.module, inline := true },
      { name := "Timestamp", value := timestamp, inline := true }] }

/-- `DiscordLogHandler.emit` from `src/main.py`: formats the record and
schedules `_send_log(log_embed)` with `bot.loop.create_task`; the only
effect is that one scheduled task. -/
def emitRun (_h : Handler) (record : LogRecord) : List Loggord.Effect :=
  [.createTask (format record)]

/-- `DiscordLogHandler._send_log` from `src/main.py`: resolves
`self.channel_id` with `bot.get_channel` and sends the embed;
`channel.send` on a `None` channel raises `AttributeError`. -/
def sendLogRun (h : Handler) (embed : Embed) : Loggord.SendOutcome :=
  match h.bot.get_channel (some h.channel_id) with
  | none => .attrError
  | some ch => .sent ch embed

/-- `configure_discord_logging` from `src/main.py`: sets the named
logger's level to `DEBUG`, constructs `DiscordLogHandler(bot, channel_id)`,
sets the handler's level to `INFO`, attaches it and returns the logger. -/
def configure_discord_logging (name : String) (bot : BotSession)
    (channel_id : Nat) (registry : String → Logger) : Logger × Handler :=
  let logger := registry name
  let logger := { logger with level := DEBUG }
  let h := DiscordLogHandler.init bot channel_id
  let h := { h with level := INFO }
  let logger := { logger with handlerLevels := logger.handlerLevels ++ [h.level] }
  (logger, h)

end MainScript

/-- Splitting at the separator returns exactly the prefix before its
first occurrence. -/
theorem pySplitHead_of_append (l1 l2 : List Char) (sep : Char)
    (h : sep ∉ l1) : pySplitHead (l1 ++ sep :: l2) sep = l1 := by
  induction l1 with
  | nil => simp [pySplitHead]
  | cons c cs ih =>
    have hc : ¬ c = sep := fun hc => h (by simp [hc])
    have hcs : sep ∉ cs := fun hm => h (List.mem_cons_of_mem _ hm)
    simp [pySplitHead, hc, ih hcs]

/-- Replacement leaves a list without the replaced character unchanged. -/
theorem pyReplaceChar_of_not_mem (l : List Char) (a b : Char)
    (h : a ∉ l) : pyReplaceChar l a b = l := by
  induction l with
  | nil => rfl
  | cons c cs ih =>
    have hc : ¬ c = a := fun hc => h (by simp [hc])
    simp only [pyReplaceChar, List.map_cons, if_neg hc]
    rw [show List.map (fun c => if c = a then b else c) cs = pyReplaceChar cs a b from rfl]
    rw [ih (fun hm => h (List.mem_cons_of_mem _ hm))]

/-- Replacement around a single occurrence of the replaced character. -/
theorem pyReplaceChar_of_append (l1 l2 : List Char) (a b : Char)
    (h1 : a ∉ l1) (h2 : a ∉ l2) :
    pyReplaceChar (l1 ++ a :: l2) a b = l1 ++ b :: l2 := by
  unfold pyReplaceChar
  rw [List.map_append, List.map_cons, if_pos rfl]
  rw [show List.map (fun c => if c = a then b else c) l1 = pyReplaceChar l1 a b from rfl]
  rw [show List.map (fun c => if c = a then b else c) l2 = pyReplaceChar l2 a b from rfl]
  rw [pyReplaceChar_of_not_mem l1 a b h1, pyReplaceChar_of_not_mem l2 a b h2]

/-- A sample ERROR-severity record. -/
def recError : LogRecord :=
  { levelno := 40, levelname := "ERROR", message := "boom",
    module := "worker", asctime := "2024-03-01 12:00:00,123" }

/-- A sample WARNING-severity record. -/
def recWarning : LogRecord :=
  { levelno := 30, levelname := "WARNING", message := "careful",
    module := "worker", asctime := "2024-03-01 12:00:00,123" }

/-- A sample INFO-severity record. -/
def recInfo : LogRecord :=
  { levelno := 20, levelname := "INFO", message := "hello",
    module := "app", asctime := "2024-03-01 12:00:00,123" }

/-- A sample DEBUG-severity record. -/
def recDebug : LogRecord :=
  { levelno := 10, levelname := "DEBUG", message := "trace",
    module := "app", asctime := "2024-03-01 12:00:00,123" }

/-- A sample bot session knowing exactly channel 42. -/
def sampleBot : BotSession :=
  { channels := fun cid => if cid = 42 then some 42 else none }

/-- A sample logger registry: every name maps to a fresh logger at level
`WARNING` with no handlers. -/
def sampleRegistry : String → Logger :=
  fun n => { name := n, level := WARNING, handlerLevels := [] }

/-- A sample webhook URL. -/
def sampleUrl : String := "https://discord.test/api/webhooks/1/tok"

/-- A sample webhook-mode handler state. -/
def sampleWebhookHandler : Loggord.Handler :=
  { webhook_url := some sampleUrl, bot := none, channel_id := none, level := 0 }

/-- A network oracle on which every request succeeds. -/
def netOk : Loggord.HttpRequest → Except Loggord.NetError Unit :=
  fun _ => .ok ()

/-- A network oracle on which every request fails with HTTP 404. -/
def net404 : Loggord.HttpRequest → Except Loggord.NetError Unit :=
  fun _ => .error (.httpError 404)

/-- Navigation to the single embed of the webhook payload. -/
def embedAt0 (j : Json) : Option Json :=
  (j.getField "embeds").bind (fun e => e.getIndex 0)

/-- Navigation to one entry of the single embed of the webhook payload. -/
def embedEntry (j : Json) (k : String) : Option Json :=
  (embedAt0 j).bind (fun e => e.getField k)

/-- C1 (counterexample): for the INFO-severity record, the bot formatting
path of `src/main.py` renders color `0x99AAB5` (`discord.Color.greyple()`),
not the grey constant `0x95A5A6` the claim asserts for `levelno < 30`. -/
theorem C1_counterexample :
    recInfo.levelno < 30 ∧ (MainScript.format recInfo).color = 0x99AAB5 ∧
      (MainScript.format recInfo).color ≠ 0x95A5A6 := by
  decide

/-- C1 (amended): the rendered color is determined solely by the record's
numeric level. In the package (`src/loggord/handler.py`), both the bot
path (`bot_format`) and the webhook path (`webhook_format`) use
`get_color`, which yields red `0xE74C3C` for `levelno ≥ 40`, yellow
`0xF1C40F` for `levelno = 30` and grey `0x95A5A6` for `levelno < 30`.
The script bot path (`src/main.py`) agrees on red but renders
`discord.Color.yellow() = 0xFEE75C` for `levelno = 30` and
`discord.Color.greyple() = 0x99AAB5` for `levelno < 30`. -/
theorem C1_color_map (r : LogRecord) :
    (40 ≤ r.levelno →
      Loggord.get_color r = 0xE74C3C ∧ (MainScript.format r).color = 0xE74C3C) ∧
    (r.levelno = 30 →
      Loggord.get_color r = 0xF1C40F ∧ (MainScript.format r).color = 0xFEE75C) ∧
    (r.levelno < 30 →
      Loggord.get_color r = 0x95A5A6 ∧ (MainScript.format r).color = 0x99AAB5) ∧
    (Loggord.bot_format r).color = Loggord.get_color r ∧
    embedEntry (Loggord.webhook_format r) "color" =
      some (.num (Loggord.get_color r)) := by
  refine ⟨fun h40 => ?_, fun h30 => ?_, fun hlt => ?_, rfl, rfl⟩
  · constructor
    · simp [Loggord.get_color, h40]
    · simp [MainScript.format, MainScript.formatColor, h40, discordColorRed]
  · constructor
    · simp [Loggord.get_color, h30]
    · simp [MainScript.format, MainScript.formatColor, h30, discordColorYellow]
  · constructor
    · unfold Loggord.get_color
      rw [if_neg (by omega), if_neg (by simp; omega)]
    · unfold MainScript.format MainScript.formatColor
      simp only
      rw [if_neg (by omega), if_neg (by simp; omega)]
      rfl

/-- C1 (witness): the amended color mapping evaluated on the three sample
records, one per severity band. -/
theorem C1_color_map_witness :
    (40 ≤ recError.levelno ∧
      Loggord.get_color recError = 0xE74C3C ∧
      (MainScript.format recError).color = 0xE74C3C) ∧
    (recWarning.levelno = 30 ∧
      Loggord.get_color recWarning = 0xF1C40F ∧
      (MainScript.format recWarning).color = 0xFEE75C) ∧
    (recInfo.levelno < 30 ∧
      Loggord.get_color recInfo = 0x95A5A6 ∧
      (MainScript.format recInfo).color = 0x99AAB5) :=
  ⟨⟨by decide, (C1_color_map recError).1 (by decide)⟩,
   ⟨by decide, (C1_color_map recWarning).2.1 (by decide)⟩,
   ⟨by decide, (C1_color_map recInfo).2.2.1 (by decide)⟩⟩

/-- C2: constructing the handler with both a bot and a (non-empty)
webhook URL, or with neither, raises `ValueError` before any attribute is
stored; the registration function then also fails, and the named logger's
handler list is left exactly as it was — no handler is registered (and
construction performs no effect, in particular no network request). -/
theorem C2_config_validation (webhook_url : Option String)
    (bot : Option BotSession) (channel_id : Option Nat) (name : String)
    (registry : String → Logger)
    (h : (truthyBot bot = true ∧ truthyStr webhook_url = true) ∨
         (truthyBot bot = false ∧ truthyStr webhook_url = false)) :
    (∃ e, Loggord.DiscordLogHandler.init webhook_url bot channel_id = .error e) ∧
    (∃ e, (Loggord.configure_discord_logging name bot channel_id webhook_url
            registry).2 = .error e) ∧
    (Loggord.configure_discord_logging name bot channel_id webhook_url
        registry).1.handlerLevels = (registry name).handlerLevels := by
  have hinit : ∃ e,
      Loggord.DiscordLogHandler.init webhook_url bot channel_id = .error e := by
    rcases h with ⟨hb, hw⟩ | ⟨hb, hw⟩
    · exact ⟨"Cannot provide both bot and webhook_url.",
        by simp [Loggord.DiscordLogHandler.init, hb, hw]⟩
    · exact ⟨"Either bot or webhook_url must be provided.",
        by simp [Loggord.DiscordLogHandler.init, hb, hw]⟩
  obtain ⟨e, he⟩ := hinit
  refine ⟨⟨e, he⟩, ⟨e, ?_⟩, ?_⟩ <;>
    simp [Loggord.configure_discord_logging, he]

/-- C2 (witness): constructing with neither a bot nor a webhook URL fails
and registers nothing on the logger. -/
theorem C2_config_validation_witness :
    ((truthyBot none = true ∧ truthyStr none = true) ∨
     (truthyBot none = false ∧ truthyStr none = false)) ∧
    (∃ e, Loggord.DiscordLogHandler.init none none none = .error e) ∧
    (∃ e, (Loggord.configure_discord_logging "app" none none none
            sampleRegistry).2 = .error e) ∧
    (Loggord.configure_discord_logging "app" none none none
        sampleRegistry).1.handlerLevels = (sampleRegistry "app").handlerLevels :=
  ⟨.inr ⟨rfl, rfl⟩,
   C2_config_validation none none none "app" sampleRegistry (.inr ⟨rfl, rfl⟩)⟩

/-- C3: for every record whose formatted timestamp contains a comma, the
display timestamp (`get_timestamp`) is exactly the part before the first
comma, and the webhook ISO timestamp is that part with its (unique)
separating space replaced by `T` and `.000Z` appended. -/
theorem C3_timestamps (r : LogRecord) (d rest : List Char)
    (hsplit : r.asctime.data = d ++ ',' :: rest) (hd : ',' ∉ d) :
    (Loggord.get_timestamp r).data = d ∧
    (∀ date time : List Char, d = date ++ ' ' :: time →
      ' ' ∉ date → ' ' ∉ time →
      (Loggord.isoTimestamp r).data = date ++ 'T' :: (time ++ (".000Z").data)) := by
  have h1 : (Loggord.get_timestamp r).data = d := by
    show pySplitHead r.asctime.data ',' = d
    rw [hsplit]
    exact pySplitHead_of_append d rest ',' hd
  refine ⟨h1, fun date time hdt hdate htime => ?_⟩
  show (String.mk (pyReplaceChar (Loggord.get_timestamp r).data ' ' 'T')
          ++ ".000Z").data = _
  rw [String.data_append, h1, hdt,
      pyReplaceChar_of_append date time ' ' 'T' hdate htime]
  simp

/-- C3 (witness): the spec's concrete example, with formatted timestamp
`2024-03-01 12:00:00,123`. -/
theorem C3_timestamps_witness :
    (Loggord.get_timestamp recInfo).data = ("2024-03-01 12:00:00").data ∧
    (Loggord.isoTimestamp recInfo).data = ("2024-03-01T12:00:00.000Z").data := by
  obtain ⟨h1, h2⟩ :=
    C3_timestamps recInfo ("2024-03-01 12:00:00").data ("123").data
      (by decide) (by decide)
  refine ⟨h1, ?_⟩
  rw [h2 ("2024-03-01").data ("12:00:00").data (by decide) (by decide) (by decide)]
  decide

/-- C4: in webhook mode, `emit` performs exactly one HTTP POST; its JSON
body's `embeds` list holds one embed whose description is the record's
message, whose color is the mapped color constant, and whose `fields`
list is exactly the two inline fields Level (= levelname) and Module
(= module); the request carries the `Content-Type: application/json` and
`User-Agent: Mozilla/5.0` headers. -/
theorem C4_webhook_emit (h : Loggord.Handler) (u : String) (r : LogRecord)
    (urlopen : Loggord.HttpRequest → Except Loggord.NetError Unit)
    (hbot : h.bot = none) (hurl : h.webhook_url = some u) (hne : u ≠ "") :
    ∃ req : Loggord.HttpRequest,
      (Loggord.emitRun h r urlopen).2 = [.httpPost req] ∧
      req.url = u ∧
      req.method = "POST" ∧
      req.headers = [("Content-Type", "application/json"),
                     ("User-Agent", "Mozilla/5.0")] ∧
      ∃ e : Json,
        req.body.getField "embeds" = some (.arr [e]) ∧
        e.getField "description" = some (.str r.message) ∧
        e.getField "color" = some (.num (Loggord.get_color r)) ∧
        e.getField "fields" = some (.arr [
          .obj [("name", .str "Level"), ("value", .str r.levelname),
                ("inline", .bool true)],
          .obj [("name", .str "Module"), ("value", .str r.module),
                ("inline", .bool true)]]) := by
  have hF : u.isEmpty = false := by
    cases hE : u.isEmpty
    · rfl
    · exact absurd ((String.isEmpty_iff u).mp hE) hne
  refine ⟨Loggord.webhookRequest h r, ?_, ?_, rfl, rfl, ?_⟩
  · simp [Loggord.emitRun, truthyBot, truthyStr, hbot, hurl, hF]
  · simp [Loggord.webhookRequest, hurl]
  · exact ⟨_, rfl, rfl, rfl, rfl⟩

/-- C4 (witness): the webhook emit evaluated on the sample webhook
handler and the ERROR record of the spec's example. -/
theorem C4_webhook_emit_witness :
    (sampleWebhookHandler.bot = none ∧
     sampleWebhookHandler.webhook_url = some sampleUrl ∧ sampleUrl ≠ "") ∧
    ∃ req : Loggord.HttpRequest,
      (Loggord.emitRun sampleWebhookHandler recError netOk).2 = [.httpPost req] ∧
      req.url = sampleUrl ∧
      req.method = "POST" ∧
      req.headers = [("Content-Type", "application/json"),
                     ("User-Agent", "Mozilla/5.0")] ∧
      ∃ e : Json,
        req.body.getField "embeds" = some (.arr [e]) ∧
        e.getField "description" = some (.str recError.message) ∧
        e.getField "color" = some (.num (Loggord.get_color recError)) ∧
        e.getField "fields" = some (.arr [
          .obj [("name", .str "Level"), ("value", .str recError.levelname),
                ("inline", .bool true)],
          .obj [("name", .str "Module"), ("value", .str recError.module),
                ("inline", .bool true)]]) :=
  ⟨⟨rfl, rfl, by decide⟩,
   C4_webhook_emit sampleWebhookHandler sampleUrl recError netOk rfl rfl (by decide)⟩

/-- Serialization of an embed field as the webhook payload's JSON shape,
used to compare the bot-mode fields with the webhook fields. -/
def EmbedField.toJson (f : EmbedField) : Json :=
  .obj [("name", .str f.name), ("value", .str f.value),
        ("inline", .bool f.inline)]

/-- C5 (counterexample): the bot-mode embed built by `bot_format` for the
sample ERROR record carries three labeled fields — Level, Module and
Timestamp — not only the two (Level, Module) the claim allows. -/
theorem C5_counterexample :
    (Loggord.bot_format recError).fields.map EmbedField.name =
      ["Level", "Module", "Timestamp"] ∧
    (Loggord.bot_format recError).fields.map EmbedField.name ≠
      ["Level", "Module"] := by
  decide

/-- C5 (amended): in bot mode, the message handed to the channel-send
capability is `bot_format record`, a structured message with description,
color, timestamp, and three labeled fields: the webhook embed's two
(Level and Module, with the same names and values) followed by an extra
Timestamp field carrying the display timestamp — no other fields. -/
theorem C5_bot_embed (h : Loggord.Handler) (b : BotSession) (r : LogRecord)
    (urlopen : Loggord.HttpRequest → Except Loggord.NetError Unit)
    (hbot : h.bot = some b) :
    (Loggord.emitRun h r urlopen).2 = [.createTask (Loggord.bot_format r)] ∧
    (Loggord.bot_format r).description = r.message ∧
    (Loggord.bot_format r).color = Loggord.get_color r ∧
    (Loggord.bot_format r).timestamp = Loggord.get_timestamp r ∧
    (Loggord.bot_format r).fields =
      [{ name := "Level", value := r.levelname, inline := true },
       { name := "Module", value := r.module, inline := true },
       { name := "Timestamp", value := Loggord.get_timestamp r, inline := true }] ∧
    embedEntry (Loggord.webhook_format r) "fields" =
      some (.arr (((Loggord.bot_format r).fields.take 2).map EmbedField.toJson)) := by
  refine ⟨?_, rfl, rfl, rfl, rfl, rfl⟩
  simp [Loggord.emitRun, truthyBot, hbot]

/-- C5 (witness): the amended bot-mode message shape evaluated on a
bot-mode handler and the ERROR record. -/
theorem C5_bot_embed_witness :
    (({ webhook_url := none, bot := some sampleBot, channel_id := some 42,
        level := 0 } : Loggord.Handler).bot = some sampleBot) ∧
    ((Loggord.emitRun
        { webhook_url := none, bot := some sampleBot, channel_id := some 42,
          level := 0 } recError netOk).2 =
      [.createTask (Loggord.bot_format recError)] ∧
     (Loggord.bot_format recError).description = recError.message ∧
     (Loggord.bot_format recError).color = Loggord.get_color recError ∧
     (Loggord.bot_format recError).timestamp = Loggord.get_timestamp recError ∧
     (Loggord.bot_format recError).fields =
       [{ name := "Level", value := recError.levelname, inline := true },
        { name := "Module", value := recError.module, inline := true },
        { name := "Timestamp", value := Loggord.get_timestamp recError,
          inline := true }] ∧
     embedEntry (Loggord.webhook_format recError) "fields" =
       some (.arr (((Loggord.bot_format recError).fields.take 2).map
         EmbedField.toJson))) :=
  ⟨rfl,
   C5_bot_embed
     { webhook_url := none, bot := some sampleBot, channel_id := some 42,
       level := 0 } sampleBot recError netOk rfl⟩

/-- C6: for every logger name and valid (exactly-one-target)
configuration, the registration function returns the named logger with
its own level set to `DEBUG` — letting every standard severity through —
and appends the sink at level `INFO`; a DEBUG-level record passes the
logger's own level check but is rejected by the handler-level check. The
same holds for the script registration function in `src/main.py`. -/
theorem C6_registration (name : String) (bot : Option BotSession)
    (channel_id : Option Nat) (webhook_url : Option String)
    (registry : String → Logger) (b : BotSession) (mcid : Nat)
    (hvalid : truthyBot bot ≠ truthyStr webhook_url)
    (hname : (registry name).name = name) :
    (∃ L hh, (Loggord.configure_discord_logging name bot channel_id webhook_url
        registry).2 = .ok (L, hh) ∧
      (Loggord.configure_discord_logging name bot channel_id webhook_url
        registry).1 = L ∧
      L.name = name ∧
      L.level = DEBUG ∧
      (∀ lv ∈ standardLevels, L.isEnabledFor lv = true) ∧
      hh.level = INFO ∧
      L.handlerLevels = (registry name).handlerLevels ++ [INFO] ∧
      L.isEnabledFor DEBUG = true ∧
      handlerReceives hh.level DEBUG = false) ∧
    ((MainScript.configure_discord_logging name b mcid registry).1.level
        = DEBUG ∧
     (MainScript.configure_discord_logging name b mcid registry).2.level
        = INFO ∧
     (MainScript.configure_discord_logging name b mcid registry).1.isEnabledFor
        DEBUG = true ∧
     handlerReceives
       (MainScript.configure_discord_logging name b mcid registry).2.level
       DEBUG = false) := by
  constructor
  · have hinit : Loggord.DiscordLogHandler.init webhook_url bot channel_id =
        .ok { webhook_url := webhook_url, bot := bot,
              channel_id := channel_id, level := 0 } := by
      cases hB : truthyBot bot <;> cases hW : truthyStr webhook_url
      · exact absurd (hB.trans hW.symm) hvalid
      · simp [Loggord.DiscordLogHandler.init, hB, hW]
      · simp [Loggord.DiscordLogHandler.init, hB, hW]
      · exact absurd (hB.trans hW.symm) hvalid
    refine ⟨{ name := (registry name).name,
              level := DEBUG,
              handlerLevels := (registry name).handlerLevels ++ [INFO] },
            { webhook_url := webhook_url, bot := bot, channel_id := channel_id,
              level := INFO }, ?_, ?_, hname, rfl, ?_, rfl, rfl, rfl, rfl⟩
    · simp [Loggord.configure_discord_logging, hinit]
    · simp [Loggord.configure_discord_logging, hinit]
    · simp [standardLevels, Logger.isEnabledFor, DEBUG, INFO, WARNING,
        ERROR, CRITICAL]
  · refine ⟨rfl, rfl, ?_, ?_⟩ <;>
      simp [MainScript.configure_discord_logging, Logger.isEnabledFor,
        handlerReceives, DEBUG, INFO]

/-- C6 (witness): registration evaluated with a bot-mode configuration on
the sample registry. -/
theorem C6_registration_witness :
    (truthyBot (some sampleBot) ≠ truthyStr none ∧
     (sampleRegistry "app").name = "app") ∧
    (∃ L hh, (Loggord.configure_discord_logging "app" (some sampleBot)
        (some 42) none sampleRegistry).2 = .ok (L, hh) ∧
      (Loggord.configure_discord_logging "app" (some sampleBot) (some 42)
        none sampleRegistry).1 = L ∧
      L.name = "app" ∧
      L.level = DEBUG ∧
      (∀ lv ∈ standardLevels, L.isEnabledFor lv = true) ∧
      hh.level = INFO ∧
      L.handlerLevels = (sampleRegistry "app").handlerLevels ++ [INFO] ∧
      L.isEnabledFor DEBUG = true ∧
      handlerReceives hh.level DEBUG = false) ∧
    ((MainScript.configure_discord_logging "app" sampleBot 42
        sampleRegistry).1.level = DEBUG ∧
     (MainScript.configure_discord_logging "app" sampleBot 42
        sampleRegistry).2.level = INFO ∧
     (MainScript.configure_discord_logging "app" sampleBot 42
        sampleRegistry).1.isEnabledFor DEBUG = true ∧
     handlerReceives (MainScript.configure_discord_logging "app" sampleBot 42
        sampleRegistry).2.level DEBUG = false) :=
  ⟨⟨by simp [truthyBot, truthyStr], rfl⟩,
   C6_registration "app" (some sampleBot) (some 42) none sampleRegistry
     sampleBot 42 (by simp [truthyBot, truthyStr]) rfl⟩

/-- C7: in bot mode, `emit` only builds the rendered message and hands
exactly one asynchronous send task to the bot's scheduler: its effects
are one `create_task` and no HTTP request, it returns successfully, and
its outcome is completely independent of the network oracle — the model
never executes the scheduled task, so the result stands even if that task
never completes. The script `emit` of `src/main.py` behaves the same. -/
theorem C7_bot_nonblocking (h : Loggord.Handler) (mh : MainScript.Handler)
    (b : BotSession) (r : LogRecord)
    (urlopen1 urlopen2 : Loggord.HttpRequest → Except Loggord.NetError Unit)
    (hbot : h.bot = some b) :
    Loggord.emitRun h r urlopen1 =
      (.ok (), [.createTask (Loggord.bot_format r)]) ∧
    ((Loggord.emitRun h r urlopen1).2.filter Loggord.Effect.isHttpPost) = [] ∧
    ((Loggord.emitRun h r urlopen1).2.filter
        Loggord.Effect.isCreateTask).length = 1 ∧
    Loggord.emitRun h r urlopen1 = Loggord.emitRun h r urlopen2 ∧
    MainScript.emitRun mh r = [.createTask (MainScript.format r)] ∧
    ((MainScript.emitRun mh r).filter Loggord.Effect.isHttpPost) = [] := by
  have hE : Loggord.emitRun h r urlopen1 =
      (.ok (), [.createTask (Loggord.bot_format r)]) := by
    simp [Loggord.emitRun, truthyBot, hbot]
  have hE2 : Loggord.emitRun h r urlopen2 =
      (.ok (), [.createTask (Loggord.bot_format r)]) := by
    simp [Loggord.emitRun, truthyBot, hbot]
  refine ⟨hE, ?_, ?_, hE.trans hE2.symm, rfl, rfl⟩ <;>
    rw [hE] <;> rfl

/-- C7 (witness): bot-mode `emit` evaluated on a concrete handler, record
and two different network oracles. -/
theorem C7_bot_nonblocking_witness :
    (({ webhook_url := none, bot := some sampleBot, channel_id := some 42,
        level := INFO } : Loggord.Handler).bot = some sampleBot) ∧
    (Loggord.emitRun
        { webhook_url := none, bot := some sampleBot, channel_id := some 42,
          level := INFO } recWarning netOk =
      (.ok (), [.createTask (Loggord.bot_format recWarning)]) ∧
     ((Loggord.emitRun
        { webhook_url := none, bot := some sampleBot, channel_id := some 42,
          level := INFO } recWarning netOk).2.filter
        Loggord.Effect.isHttpPost) = [] ∧
     ((Loggord.emitRun
        { webhook_url := none, bot := some sampleBot, channel_id := some 42,
          level := INFO } recWarning netOk).2.filter
        Loggord.Effect.isCreateTask).length = 1 ∧
     Loggord.emitRun
        { webhook_url := none, bot := some sampleBot, channel_id := some 42,
          level := INFO } recWarning netOk =
       Loggord.emitRun
        { webhook_url := none, bot := some sampleBot, channel_id := some 42,
          level := INFO } recWarning net404 ∧
     MainScript.emitRun { bot := sampleBot, channel_id := 42, level := INFO }
        recWarning = [.createTask (MainScript.format recWarning)] ∧
     ((MainScript.emitRun { bot := sampleBot, channel_id := 42, level := INFO }
        recWarning).filter Loggord.Effect.isHttpPost) = []) :=
  ⟨rfl,
   C7_bot_nonblocking
     { webhook_url := none, bot := some sampleBot, channel_id := some 42,
       level := INFO }
     { bot := sampleBot, channel_id := 42, level := INFO }
     sampleBot recWarning netOk net404 rfl⟩

/-- C8: in webhook mode, `emit` attempts delivery exactly once (one HTTP
request, no scheduled task) and propagates the network oracle's outcome
unchanged: an `HTTPError`/`URLError` raised by `urlopen` — including any
non-2xx response — surfaces out of `emit` as the same error, with no
retry, no fallback and no handler catching it. -/
theorem C8_webhook_error (h : Loggord.Handler) (u : String) (r : LogRecord)
    (urlopen : Loggord.HttpRequest → Except Loggord.NetError Unit)
    (hbot : h.bot = none) (hurl : h.webhook_url = some u) (hne : u ≠ "") :
    ((Loggord.emitRun h r urlopen).2.filter
        Loggord.Effect.isHttpPost).length = 1 ∧
    ((Loggord.emitRun h r urlopen).2.filter Loggord.Effect.isCreateTask) = [] ∧
    (∀ e, urlopen (Loggord.webhookRequest h r) = .error e →
      (Loggord.emitRun h r urlopen).1 = .error e) ∧
    (urlopen (Loggord.webhookRequest h r) = .ok () →
      (Loggord.emitRun h r urlopen).1 = .ok ()) := by
  have hF : u.isEmpty = false := by
    cases hE : u.isEmpty
    · rfl
    · exact absurd ((String.isEmpty_iff u).mp hE) hne
  have hE : Loggord.emitRun h r urlopen =
      (urlopen (Loggord.webhookRequest h r),
        [.httpPost (Loggord.webhookRequest h r)]) := by
    simp [Loggord.emitRun, truthyBot, truthyStr, hbot, hurl, hF]
  refine ⟨?_, ?_, fun e he => ?_, fun hok => ?_⟩ <;> rw [hE]
  · rfl
  · rfl
  · exact he
  · exact hok

/-- C8 (witness): webhook-mode `emit` evaluated against an oracle that
returns HTTP 404: the error propagates out unchanged. -/
theorem C8_webhook_error_witness :
    (sampleWebhookHandler.bot = none ∧
     sampleWebhookHandler.webhook_url = some sampleUrl ∧ sampleUrl ≠ "") ∧
    (((Loggord.emitRun sampleWebhookHandler recError net404).2.filter
        Loggord.Effect.isHttpPost).length = 1 ∧
     ((Loggord.emitRun sampleWebhookHandler recError net404).2.filter
        Loggord.Effect.isCreateTask) = [] ∧
     (net404 (Loggord.webhookRequest sampleWebhookHandler recError) =
        .error (.httpError 404) →
      (Loggord.emitRun sampleWebhookHandler recError net404).1 =
        .error (.httpError 404))) :=
  ⟨⟨rfl, rfl, by decide⟩,
   by
     have hmain := C8_webhook_error sampleWebhookHandler sampleUrl recError
       net404 rfl rfl (by decide)
     exact ⟨hmain.1, hmain.2.1, hmain.2.2.1 (.httpError 404)⟩⟩

/-- C9 (counterexample): on the INFO record the two implementations
disagree: the package renders color `0x95A5A6` while the script renders
`discord.Color.greyple() = 0x99AAB5`, so the rendered messages are not
behaviorally equal. -/
theorem C9_counterexample :
    (Loggord.bot_format recInfo).color = 0x95A5A6 ∧
    (MainScript.format recInfo).color = 0x99AAB5 ∧
    Loggord.bot_format recInfo ≠ MainScript.format recInfo := by
  decide

/-- C9 (amended): for every record, the package bot path (`bot_format`)
and the script bot path (`main.py`'s `format`) produce the same
description, the same timestamp and the same fields, and the same color
for `levelno ≥ 40`; but for `levelno = 30` the colors are `0xF1C40F`
versus `discord.Color.yellow() = 0xFEE75C`, and for `levelno < 30` they
are `0x95A5A6` versus `discord.Color.greyple() = 0x99AAB5` — the two
versions differ not only in webhook support but also in two of the three
color values. -/
theorem C9_equivalence (r : LogRecord) :
    (Loggord.bot_format r).description = (MainScript.format r).description ∧
    (Loggord.bot_format r).timestamp = (MainScript.format r).timestamp ∧
    (Loggord.bot_format r).fields = (MainScript.format r).fields ∧
    (40 ≤ r.levelno →
      (Loggord.bot_format r).color = (MainScript.format r).color) ∧
    (r.levelno = 30 →
      (Loggord.bot_format r).color = 0xF1C40F ∧
      (MainScript.format r).color = 0xFEE75C) ∧
    (r.levelno < 30 →
      (Loggord.bot_format r).color = 0x95A5A6 ∧
      (MainScript.format r).color = 0x99AAB5) := by
  refine ⟨rfl, rfl, rfl, fun h40 => ?_, fun h30 => ?_, fun hlt => ?_⟩
  · show Loggord.get_color r = MainScript.formatColor r
    simp [Loggord.get_color, MainScript.formatColor, h40, discordColorRed]
  · constructor
    · show Loggord.get_color r = 0xF1C40F
      simp [Loggord.get_color, h30]
    · show MainScript.formatColor r = 0xFEE75C
      simp [MainScript.formatColor, h30, discordColorYellow]
  · constructor
    · show Loggord.get_color r = 0x95A5A6
      unfold Loggord.get_color
      rw [if_neg (by omega), if_neg (by simp; omega)]
    · show MainScript.formatColor r = 0x99AAB5
      unfold MainScript.formatColor
      rw [if_neg (by omega), if_neg (by simp; omega)]
      rfl

/-- C9 (witness): the amended equivalence evaluated on the three sample
records, one per severity band. -/
theorem C9_equivalence_witness :
    ((Loggord.bot_format recDebug).description =
        (MainScript.format recDebug).description ∧
     (Loggord.bot_format recDebug).timestamp =
        (MainScript.format recDebug).timestamp ∧
     (Loggord.bot_format recDebug).fields = (MainScript.format recDebug).fields) ∧
    (40 ≤ recError.levelno ∧
     (Loggord.bot_format recError).color = (MainScript.format recError).color) ∧
    (recWarning.levelno = 30 ∧
     (Loggord.bot_format recWarning).color = 0xF1C40F ∧
     (MainScript.format recWarning).color = 0xFEE75C) ∧
    (recDebug.levelno < 30 ∧
     (Loggord.bot_format recDebug).color = 0x95A5A6 ∧
     (MainScript.format recDebug).color = 0x99AAB5) :=
  ⟨⟨(C9_equivalence recDebug).1, (C9_equivalence recDebug).2.1,
    (C9_equivalence recDebug).2.2.1⟩,
   ⟨by decide, (C9_equivalence recError).2.2.2.1 (by decide)⟩,
   ⟨by decide, (C9_equivalence recWarning).2.2.2.2.1 (by decide)⟩,
   ⟨by decide, (C9_equivalence recDebug).2.2.2.2.2 (by decide)⟩⟩

/-- C10: constructing the package handler with a bot and `channel_id`
omitted (`None`) succeeds — the constructor never validates the channel
identifier — and `emit` still schedules the send without error; the
missing identifier only surfaces inside the scheduled `_send_log`, where
`bot.get_channel(None)` resolves to `None` and `channel.send` raises
`AttributeError`. -/
theorem C10_channel_unvalidated (b : BotSession) (r : LogRecord)
    (urlopen : Loggord.HttpRequest → Except Loggord.NetError Unit) :
    Loggord.DiscordLogHandler.init none (some b) none =
      .ok { webhook_url := none, bot := some b, channel_id := none,
            level := 0 } ∧
    (Loggord.emitRun
        { webhook_url := none, bot := some b, channel_id := none, level := 0 }
        r urlopen).1 = .ok () ∧
    (Loggord.emitRun
        { webhook_url := none, bot := some b, channel_id := none, level := 0 }
        r urlopen).2 = [.createTask (Loggord.bot_format r)] ∧
    Loggord.sendLogRun
        { webhook_url := none, bot := some b, channel_id := none, level := 0 }
        (Loggord.bot_format r) = .attrError :=
  ⟨rfl, rfl, rfl, rfl⟩
